import Mathlib

/-!
Verification development for the kantek moderation layer.

The definitions below are a shallow embedding of the Python sources:
  - src/kantek/database/postgres.py        (AutobahnBlacklist, BanList)
  - src/kantek/utils/helpers.py            (rose_csv_to_dict, hash_file)
  - src/kantek/plugins/autobahn/banlist.py (import_ subcommand)
  - src/kantek/plugins/autobahn/autobahn_mgr.py (add, del_ subcommands)
  - src/kantek/plugins/autobahn/automatic/grenzschutz.py (enforcement engine)

Python dynamic values that can be either ints or strings are modelled by
`PyVal`; Python exceptions by `PyErr` / `Except`.  Database tables are
modelled as lists of rows in insertion order; `fetchrow` on a query with
several matching rows is modelled as returning the first match in
insertion order.
-/

namespace Kantek

/-- A Python value that can flow into the denylist operations: the callers
pass either ints (resolved channel ids) or strings. -/
inductive PyVal where
  | int (n : Int)
  | str (s : String)
deriving DecidableEq, Repr

/-- Python `str(...)` on the values above. -/
def pyStr : PyVal → String
  | .int n => toString n
  | .str s => s

/-- Python exceptions raised by the modelled code paths. -/
inductive PyErr where
  | valueError            -- int(...) on a non-numeric string
  | unboundLocalError     -- reference to a local variable that was never assigned
  | typeError             -- wrong dynamic type reaching the driver
  | itemDoesNotExist      -- database.ItemDoesNotExistError
  | swClientError         -- exception raised by the SpamWatch client add_bans call
  | cardinalityViolation  -- PostgreSQL 21000: ON CONFLICT DO UPDATE cannot affect row a second time
deriving DecidableEq, Repr

/-- One row of a `blacklists.{name}` table (postgres.py): serial id,
`item TEXT`, `retired BOOLEAN`. -/
structure BlacklistRow where
  id : Nat
  item : String
  retired : Bool
deriving DecidableEq, Repr

/-- The `BlacklistItem` record type returned by the table wrapper
(database/types.py: index, value, retired). The value is a `PyVal` because
`add` returns the raw, uncoerced argument while the SELECT-based reads
return the stored TEXT. -/
structure BlacklistItem where
  index : Nat
  value : PyVal
  retired : Bool
deriving DecidableEq, Repr

/-- One per-category blacklist table.  `rows` is the table content in
insertion order.  Modelled from the spec: the table schema (the DDL for
`blacklists.*`, including the id column's default) is not in src/; the id
assignment is modelled as the spec's per-category monotonic sequence
(`nextId`, incremented on every insert, never reset). -/
structure BlacklistTable where
  rows : List BlacklistRow
  nextId : Nat
deriving DecidableEq, Repr

namespace AutobahnBlacklist

/-- The empty table, sequence at 0. -/
def emptyTable : BlacklistTable := ⟨[], 0⟩

/-- postgres.py lines 48-56:
`INSERT INTO blacklists.{name} (item) VALUES ($1) RETURNING id` with
`str(item)`, then `return BlacklistItem(row['id'], item, False)`.
Note the stored column is `str(item)` but the returned record carries the
raw `item`. -/
def add (t : BlacklistTable) (item : PyVal) : BlacklistTable × BlacklistItem :=
  (⟨t.rows ++ [⟨t.nextId, pyStr item, false⟩], t.nextId + 1⟩,
   ⟨t.nextId, item, false⟩)

/-- postgres.py lines 58-66:
`SELECT * WHERE item = $1` (first matching row); `None` if no row or the
row is retired, else the row as a BlacklistItem. -/
def get_by_value (t : BlacklistTable) (item : PyVal) : Option BlacklistItem :=
  match t.rows.find? (fun r => r.item == pyStr item) with
  | none => none
  | some r => if r.retired then none else some ⟨r.id, .str r.item, r.retired⟩

/-- postgres.py lines 68-71: `SELECT * WHERE id = $1`, regardless of the
retired flag. -/
def get (t : BlacklistTable) (index : Nat) : Option BlacklistItem :=
  (t.rows.find? (fun r => r.id == index)).map (fun r => ⟨r.id, .str r.item, r.retired⟩)

/-- postgres.py lines 73-76:
`UPDATE blacklists.{name} SET retired=TRUE WHERE item=$1 RETURNING id`
with `str(item)` and `fetchrow`.  The UPDATE has no `retired=false`
filter, so it retires every row whose item matches — active or already
retired — and returns the id of the first matching row (`none` only when
no row at all matches). -/
def retire (t : BlacklistTable) (item : PyVal) : BlacklistTable × Option Nat :=
  (⟨t.rows.map (fun r => if r.item == pyStr item then ⟨r.id, r.item, true⟩ else r),
    t.nextId⟩,
   (t.rows.find? (fun r => r.item == pyStr item)).map (fun r => r.id))

/-- postgres.py lines 78-82: all non-retired rows. -/
def get_all (t : BlacklistTable) : List BlacklistItem :=
  (t.rows.filter (fun r => !r.retired)).map (fun r => ⟨r.id, .str r.item, r.retired⟩)

/-- Modelled from the spec: the Database wrapper (database/database.py is
not in src/) turns a retire that matched no row into the
`ItemDoesNotExistError` caught by the del_ subcommand ("retire ... fails
with NotFound"). -/
def retireW (t : BlacklistTable) (item : PyVal) : Except PyErr (BlacklistTable × Nat) :=
  match retire t item with
  | (t2, some i) => .ok (t2, i)
  | (_, none) => .error .itemDoesNotExist

/-- Well-formedness of a table: every assigned id is below the sequence
counter. Holds for every table reachable from `emptyTable`. -/
def WF (t : BlacklistTable) : Prop := ∀ r ∈ t.rows, r.id < t.nextId

instance (t : BlacklistTable) : Decidable (WF t) := by
  unfold WF; infer_instance

/-- No two rows share an id. -/
def NoDupIds (t : BlacklistTable) : Prop := (t.rows.map BlacklistRow.id).Nodup

instance (t : BlacklistTable) : Decidable (NoDupIds t) := by
  unfold NoDupIds; infer_instance

end AutobahnBlacklist

/-! ### Ban registry (postgres.py, class BanList) -/

/-- The `banlist` table: (id, reason) rows in insertion order.  The
`date`/`message` columns play no part in any claim and are omitted. -/
abbrev Banlist := List (Int × String)

/-- `SELECT * FROM banlist WHERE id = $1` (db.banlist.get). -/
def banlistGet (bl : Banlist) (uid : Int) : Option String :=
  (bl.find? (fun p => p.1 == uid)).map (fun p => p.2)

/-- Python `int(s)` restricted to an optional sign followed by decimal
digits (Python additionally strips whitespace and accepts underscore
separators; no modelled input uses those). `none` models `ValueError`. -/
def intPy? (s : String) : Option Int :=
  let digits : List Char → Option Nat := fun l =>
    match l with
    | [] => none
    | _ => l.foldl
        (fun acc c => acc.bind (fun n =>
          if c.isDigit then some (n * 10 + (c.toNat - 48)) else none))
        (some 0)
  match s.data with
  | '-' :: rest => (digits rest).map (fun n => -(n : Int))
  | '+' :: rest => (digits rest).map (fun n => (n : Int))
  | l => (digits l).map (fun n => (n : Int))

/-- One `ON CONFLICT (id) DO UPDATE SET reason=excluded.reason` row merge:
update the existing row's reason, else append. -/
def upsertOne (bl : Banlist) (uid : Int) (reason : String) : Banlist :=
  if bl.any (fun p => p.1 == uid) then
    bl.map (fun p => if p.1 == uid then (p.1, reason) else p)
  else bl ++ [(uid, reason)]

/-- Whether the parsed batch proposes two rows with the same id — the
condition under which PostgreSQL's single `INSERT .. ON CONFLICT (id) DO
UPDATE` raises error 21000 ("ON CONFLICT DO UPDATE command cannot affect
row a second time"). -/
def hasDupId : List (Int × String) → Bool
  | [] => false
  | p :: rest => rest.any (fun q => q.1 == p.1) || hasDupId rest

/-- postgres.py lines 162-174, BanList.upsert_multiple:
`bans = [(int(u['id']), str(u['reason']), ...) for u in bans]` — the int
conversion of every id happens before any database work, so one
non-numeric id raises ValueError and nothing at all is written; then a
single transaction copies the batch and merges it with one
`INSERT INTO banlist SELECT * FROM _data ON CONFLICT (id) DO UPDATE`.
PostgreSQL does not merge two proposed rows with the same id within one
such command: it raises the 21000 cardinality violation and the
transaction aborts with no writes.  When all batch ids are distinct,
each row inserts or overwrites the existing row with its id. -/
def upsert_multiple (bl : Banlist) (bans : List (String × String)) : Except PyErr Banlist :=
  match bans.mapM (fun p => (intPy? p.1).map (fun i => (i, p.2))) with
  | none => .error .valueError
  | some parsed =>
    if hasDupId parsed then .error .cardinalityViolation
    else .ok (parsed.foldl (fun acc p => upsertOne acc p.1 p.2) bl)

/-! ### CSV parsing (helpers.py, rose_csv_to_dict) -/

/-- helpers.py lines 55-73: skip the header row, then for each CSV record
take `line[0]` as the id and `line[-1]` as the reason, appending every
record — no deduplication and no numeric validation.  CSV records are
modelled as already-split field lists (the csv module is an external
library; no modelled input needs quoting).  `line[0]` on an empty record
would raise IndexError in Python; fields default to "" here since no
claim exercises empty records. -/
def rose_csv_to_dict (rows : List (List String)) : List (String × String) :=
  (rows.drop 1).map (fun line => (line.headD "", line.getLastD ""))

/-! ### Banlist import (plugins/autobahn/banlist.py, import_ subcommand) -/

/-- One step of banlist.py line 86:
`bans[b['reason']] = bans.get(b['reason'], []) + [b['id']]` on the
insertion-ordered dict `acc`, for the record `p = (id, reason)`. -/
def reasonStep (acc : List (String × List String)) (p : String × String) :
    List (String × List String) :=
  if acc.any (fun q => q.1 == p.2) then
    acc.map (fun q => if q.1 == p.2 then (q.1, q.2 ++ [p.1]) else q)
  else acc ++ [(p.2, [p.1])]

/-- banlist.py lines 84-86: the dict keyed by reason (insertion-ordered by
first occurrence), each key holding the list of id strings with that
reason, in batch order. -/
def buildReasonDict (bans : List (String × String)) : List (String × List String) :=
  bans.foldl reasonStep []

/-- The `while uids_copy:` slicing loop of banlist.py lines 89-93, fuelled
so that it computes by structural recursion: take `SWAPI_SLICE_LENGTH = 50`
ids, drop them, repeat.  `fuel = l.length` always suffices since every
step drops at least one element of a nonempty list. -/
def chunksOfAux : Nat → List String → List (List String)
  | 0, _ => []
  | _, [] => []
  | fuel + 1, a :: rest => (a :: rest).take 50 :: chunksOfAux fuel ((a :: rest).drop 50)

/-- The chunks of at most 50 ids pushed for one reason. -/
def chunksOf (l : List String) : List (List String) := chunksOfAux l.length l

/-- All (reason, chunk) pairs in the order the two nested loops of
banlist.py lines 88-93 issue them. -/
def allChunks (dict : List (String × List String)) : List (String × List String) :=
  (dict.map (fun q => (chunksOf q.2).map (fun c => (q.1, c)))).flatten

/-- The sequential chunk pushes: `client.sw.add_bans(...)` per chunk, with
no try/except around the call — modelled by `fail`, true when the call
raises.  Returns the chunks pushed before the first failing call and
whether all calls succeeded; a raise stops the loop (the exception
propagates out of the subcommand). -/
def pushAll (fail : String → List String → Bool) :
    List (String × List String) → List (String × List String) × Bool
  | [] => ([], true)
  | c :: rest =>
    if fail c.1 c.2 then ([], false)
    else
      let p := pushAll fail rest
      (c :: p.1, p.2)

/-- Observable outcome of the import_ subcommand: the banlist table after
the command (the database write persists even when a later push raises),
the (reason, chunk) batches actually handed to the SpamWatch client, and
the command's result — `.ok n` is the "Added {n} entries." report. -/
structure ImportOutcome where
  db : Banlist
  pushed : List (String × List String)
  result : Except PyErr Nat
deriving Repr

/-- banlist.py lines 62-98, import_ subcommand, after the CSV has been
downloaded and split into records: parse with rose_csv_to_dict; if the
list is nonempty upsert it (a ValueError there aborts with no write);
if the SpamWatch client is configured with Admin/Root permission
(`swPrivileged`), partition by reason and push chunks of 50 sequentially
(a raising add_bans call aborts the remaining chunks but the local upsert
stands); report `Added {len(_banlist)} entries.`. -/
def importBanlist (bl : Banlist) (rows : List (List String)) (swPrivileged : Bool)
    (fail : String → List String → Bool) : ImportOutcome :=
  if (rose_csv_to_dict rows).isEmpty then ⟨bl, [], .ok (rose_csv_to_dict rows).length⟩
  else
    match upsert_multiple bl (rose_csv_to_dict rows) with
    | .error e => ⟨bl, [], .error e⟩
    | .ok bl2 =>
      if swPrivileged then
        match pushAll fail (allChunks (buildReasonDict (rose_csv_to_dict rows))) with
        | (pushed, true) => ⟨bl2, pushed, .ok (rose_csv_to_dict rows).length⟩
        | (pushed, false) => ⟨bl2, pushed, .error .swClientError⟩
      else ⟨bl2, [], .ok (rose_csv_to_dict rows).length⟩

/-! ### Enforcement engine (plugins/autobahn/automatic/grenzschutz.py) -/

/-- The action attached to a ChatAction event's action_message. -/
inductive ChatActionKind where
  | joinedByLink   -- MessageActionChatJoinedByLink
  | addUser        -- MessageActionChatAddUser
  | other
deriving DecidableEq, Repr

/-- The fields of a telethon ChatAction event the handler reads. -/
structure ChatActionEvent where
  user_left : Bool
  user_kicked : Bool
  action_message : Option ChatActionKind   -- none models action_message is None
  user_id : Option Int
deriving DecidableEq, Repr

/-- An inbound event: either a membership ChatAction or a NewMessage
(with its author id, `event.message.from_id`). -/
inductive GEvent where
  | chatAction (e : ChatActionEvent)
  | newMessage (from_id : Option Int)
deriving DecidableEq, Repr

/-- The bot's delegated admin rights in the chat (only the field the
handler reads). -/
structure AdminRights where
  ban_users : Bool
deriving DecidableEq, Repr

/-- The chat entity fields the handler reads: whether the acting account
is the chat's creator and its admin-rights object, if any. -/
structure GChat where
  creator : Bool
  admin_rights : Option AdminRights
deriving DecidableEq, Repr

/-- The collaborators and ambient state one grenzschutz run reads.
`banlist` is `db.banlist.get`; `admins` the ids returned by
`get_participants(..., filter=admins)`; `ban_fails` models the platform
raising UserIdInvalidError from `client.ban`; `get_entity_fails` models
`client.get_entity(uid)` raising ValueError (caught and logged, leaving
the local `user` unassigned). -/
structure GEnv where
  is_private : Bool
  chat : GChat
  polizei_tag : Option String
  grenzschutz_tag : Option String
  get_entity_fails : Bool
  banlist : Int → Option String
  admins : List Int
  ban_fails : Bool

/-- Terminal outcome of one run. -/
inductive GOutcome where
  | ignored          -- any early return before the ban-registry lookup
  | notBanned        -- registry miss
  | adminExempt      -- subject is in the chat's admin set
  | banFailed        -- client.ban raised UserIdInvalidError
  | banned           -- ban executed (notification sent unless silent)
  | crashedAtNotify  -- NameError: notification references the unassigned `user`
deriving DecidableEq, Repr

/-- What one run did: number of `client.ban` invocations, whether the
triggering message was deleted, and the terminal outcome. -/
structure GTrace where
  banCalls : Nat
  deletedTrigger : Bool
  outcome : GOutcome
deriving DecidableEq, Repr

/-- The trace of every early `return`. -/
def ignoredTrace : GTrace := ⟨0, false, .ignored⟩

/-- grenzschutz.py lines 39-47: ChatAction events for leave/kick, with no
action_message, or whose action is not join-by-link/add-user are dropped;
NewMessage events have no shape check. -/
def shapePass : GEvent → Bool
  | .newMessage _ => true
  | .chatAction e =>
    if e.user_left || e.user_kicked then false
    else
      match e.action_message with
      | none => false
      | some .joinedByLink => true
      | some .addUser => true
      | some .other => false

/-- grenzschutz.py lines 50-53:
`if not chat.creator and not chat.admin_rights: return` then
`if chat.admin_rights and not chat.admin_rights.ban_users: return`.
Note the second check also fires for a creator whose admin_rights object
lacks ban_users. -/
def codeAuthority (c : GChat) : Bool :=
  if !c.creator && c.admin_rights.isNone then false
  else
    match c.admin_rights with
    | some r => r.ban_users
    | none => true

/-- grenzschutz.py line 59: either tag set to "exclude" disables
enforcement for the chat. -/
def excludedTags (env : GEnv) : Bool :=
  (env.grenzschutz_tag == some "exclude") || (env.polizei_tag == some "exclude")

/-- grenzschutz.py lines 62-69: the subject user id. -/
def subjectId : GEvent → Option Int
  | .chatAction e => e.user_id
  | .newMessage fid => fid

/-- grenzschutz.py lines 24-96, the full handler: private chats and
malformed shapes are ignored; the authority and opt-out checks run; the
subject is looked up in the ban registry; chat admins are exempt;
otherwise `client.ban` is invoked once — if it raises UserIdInvalidError
the run stops (message not deleted); else the triggering message is
deleted and, unless the grenzschutz tag is "silent", the notification is
sent (which raises NameError when get_entity had failed, since `user`
was never assigned). -/
def grenzschutz (env : GEnv) (ev : GEvent) : GTrace :=
  if env.is_private then ignoredTrace
  else if !shapePass ev then ignoredTrace
  else if !codeAuthority env.chat then ignoredTrace
  else if excludedTags env then ignoredTrace
  else
    match subjectId ev with
    | none => ignoredTrace
    | some uid =>
      match env.banlist uid with
      | none => ⟨0, false, .notBanned⟩
      | some _reason =>
        if !(env.admins.contains uid) then
          if env.ban_fails then ⟨1, false, .banFailed⟩
          else if env.grenzschutz_tag == some "silent" then ⟨1, true, .banned⟩
          else if env.get_entity_fails then ⟨1, true, .crashedAtNotify⟩
          else ⟨1, true, .banned⟩
        else ⟨0, false, .adminExempt⟩

/-! ### Blacklist add command (plugins/autobahn/autobahn_mgr.py, add) -/

/-- Environment of one `autobahn add` invocation.  `resolveItem` abstracts
the category-specific canonicalisation of an inline item (lines 75-104:
invite-link/entity resolution for channels, URL netloc for domains, dot
stripping for tld; for bio/string it is `some (.str raw)`); `none` means
the item ends on the skipped bucket (the source appends a category-specific
representation of the failed item there, modelled as `none`).  `file_hash`
is `helpers.hash_file` of the downloaded bytes (SHA-512 hex digest) and
`photo_hash` is `helpers.hash_photo` of the downloaded photo, both
supplied by the platform collaborator. -/
structure AddEnv where
  resolveItem : String → Option PyVal
  is_reply : Bool
  has_file : Bool
  has_photo : Bool
  file_hash : String
  photo_hash : String

/-- The operator-facing report of `autobahn add`: the added / existing /
skipped buckets (added and existing carry index-value pairs), the
low-entropy warning line, and the early-return error text, if any. -/
structure AddReport where
  added : List (Nat × PyVal)
  existing : List (Nat × PyVal)
  skipped : List (Option PyVal)
  warn : Bool
  errorMsg : Option String
deriving DecidableEq, Repr

/-- State threaded through the per-item loop of `add` (lines 72-114). -/
structure AddLoopState where
  bl : BlacklistTable
  added : List (Nat × PyVal)
  existing : List (Nat × PyVal)
  skipped : List (Option PyVal)
deriving DecidableEq, Repr

/-- One iteration of the loop: resolve the raw item; unresolvable items go
to skipped (lines 94, 101, 106-108); otherwise the caller-level dedup
check-then-act: `get_by_value`, then `add` on a miss (added bucket) or the
existing entry (existing bucket) (lines 109-114). -/
def addLoopStep (env : AddEnv) (st : AddLoopState) (raw : String) : AddLoopState :=
  match env.resolveItem raw with
  | none => { st with skipped := st.skipped ++ [none] }
  | some v =>
    match AutobahnBlacklist.get_by_value st.bl v with
    | none =>
      let p := AutobahnBlacklist.add st.bl v
      { st with bl := p.1, added := st.added ++ [(p.2.index, p.2.value)] }
    | some ex => { st with existing := st.existing ++ [(ex.index, ex.value)] }

/-- autobahn_mgr.py lines 47-171, the add subcommand, for a known
category (`hexType` is `AUTOBAHN_TYPES.get(item_type)`; when it is `none`
the loop body and both reply branches are skipped and an empty report is
returned).  After the inline-item loop:

* file branch (lines 116-136, `hexType = "0x5"`, no inline items): reply
  and file checks produce an error report; otherwise the file is
  downloaded and hashed — and then line 129 runs
  `existing_one = await blacklist.get(item)`, where the local `item` was
  never assigned (the loop did not run: `items` is empty), so the command
  raises UnboundLocalError before any classification; moreover the added
  branch at lines 131-134 builds its `KeyValueItem` without appending it
  to `added_items`.
* photo branch (lines 137-159, `hexType = "0x6"`): dedups by
  `get_by_value(photo_hash)`, appends to existing or adds a new entry
  (with the `Counter(photo_hash).get('0', 0) > 8` low-entropy warning)
  and appends it to added. -/
def autobahnAdd (env : AddEnv) (hexType : Option String) (items : List String)
    (bl : BlacklistTable) : Except PyErr (BlacklistTable × AddReport) :=
  let st0 : AddLoopState := ⟨bl, [], [], []⟩
  let st := if hexType.isNone then st0 else items.foldl (addLoopStep env) st0
  if items.isEmpty && hexType == some "0x5" then
    if !env.is_reply then
      .ok (st.bl, ⟨[], [], [], false, some "Need to reply to a file"⟩)
    else if !env.has_file then
      .ok (st.bl, ⟨[], [], [], false, some "Need to reply to a file"⟩)
    else
      -- line 129: `blacklist.get(item)` — `item` is unbound on this path
      .error .unboundLocalError
  else if items.isEmpty && hexType == some "0x6" then
    if !env.is_reply then
      .ok (st.bl, ⟨[], [], [], false, some "Need to reply to a photo"⟩)
    else if !env.has_photo then
      .ok (st.bl, ⟨[], [], [], false, some "Need to reply to a photo"⟩)
    else
      match AutobahnBlacklist.get_by_value st.bl (.str env.photo_hash) with
      | none =>
        let p := AutobahnBlacklist.add st.bl (.str env.photo_hash)
        let warn := env.photo_hash.data.count '0' > 8
        .ok (p.1, ⟨st.added ++ [(p.2.index, p.2.value)], st.existing, st.skipped, warn, none⟩)
      | some ex =>
        .ok (st.bl, ⟨st.added, st.existing ++ [(ex.index, ex.value)], st.skipped, false, none⟩)
  else
    .ok (st.bl, ⟨st.added, st.existing, st.skipped, false, none⟩)

/-! ### del_ subcommand (autobahn_mgr.py lines 174-212) -/

/-- The per-item body of del_: `blacklist.retire(item)` through the
Database wrapper; an ItemDoesNotExistError puts the item on the skipped
bucket, success on the removed bucket. -/
def delItem (t : BlacklistTable) (item : PyVal) : BlacklistTable × Bool :=
  match AutobahnBlacklist.retireW t item with
  | .ok (t2, _) => (t2, true)     -- removed_items.append
  | .error _ => (t, false)        -- skipped_items.append

/-! ### Spec-side predicate and concrete fixtures used in the theorems -/

/-- The authority predicate as the spec words it: "the acting account must
be the chat's creator, or hold delegated admin rights that include a ban
capability".  Stated for comparison with `codeAuthority`. -/
def specAuthority (c : GChat) : Bool :=
  c.creator ||
    (match c.admin_rights with
     | some r => r.ban_users
     | none => false)

/-- A group chat where the bot is the creator but its admin-rights object
lacks ban_users; no opt-out tags; user 5 is in the ban registry; no
admins; the platform ban succeeds. -/
def envCreatorNoBanRight : GEnv :=
  ⟨false, ⟨true, some ⟨false⟩⟩, none, none, false,
   (fun u => if u == 5 then some "spam" else none), [], false⟩

/-- Full authority (delegated admin rights with ban_users), user 5 banned,
not an admin — but the platform ban raises UserIdInvalidError. -/
def envBanRaises : GEnv :=
  ⟨false, ⟨false, some ⟨true⟩⟩, none, none, false,
   (fun u => if u == 5 then some "spam" else none), [], true⟩

/-- Same as `envBanRaises` but the platform ban succeeds. -/
def envBanOk : GEnv := { envBanRaises with ban_fails := false }

/-- The CSV scenario of the spec: header then (111,spam), (111,spam2),
(222,flood). -/
def c4rows : List (List String) :=
  [["id", "reason"], ["111", "spam"], ["111", "spam2"], ["222", "flood"]]

/-- A batch with a malformed (non-numeric) id in the middle. -/
def c6rows : List (List String) :=
  [["id", "reason"], ["111", "spam"], ["abc", "x"], ["222", "flood"]]

/-- 60 banned ids sharing one reason: two chunks of 50 and 10. -/
def c8rows : List (List String) :=
  [["id", "reason"]] ++ (List.range 60).map (fun i => [toString i, "spam"])

/-- An add_bans collaborator that raises on any chunk containing id "0" —
i.e. on the first of the two chunks of `c8rows`. -/
def c8fail : String → List String → Bool := fun _ c => c.contains "0"

/-- A small well-formed import batch for witnesses. -/
def w8rows : List (List String) :=
  [["id", "reason"], ["1", "a"], ["2", "a"], ["3", "b"]]

/-- A table whose only entry with value "v" is already retired. -/
def c5table : BlacklistTable :=
  (AutobahnBlacklist.retire (AutobahnBlacklist.add AutobahnBlacklist.emptyTable (.str "v")).1
    (.str "v")).1

/-- A table holding a single active entry "x" at index 0. -/
def wtable : BlacklistTable := (AutobahnBlacklist.add AutobahnBlacklist.emptyTable (.str "x")).1

/-- An add-command environment replying to a file message, with inline
items absent; bio/string-style resolution. -/
def addEnvFile : AddEnv :=
  ⟨fun s => some (.str s), true, true, false, "HASH", "PHOTO"⟩

/-! ## Theorems -/

namespace AutobahnBlacklist

/-- find? commutes with mapping a row transform that preserves the
predicate (the retire UPDATE preserves both id and item). -/
theorem find?_map_pres (f : BlacklistRow → BlacklistRow) (p : BlacklistRow → Bool)
    (hf : ∀ r, p (f r) = p r) (rows : List BlacklistRow) :
    (rows.map f).find? p = (rows.find? p).map f := by
  induction rows with
  | nil => rfl
  | cons a tl ih =>
    rw [List.map_cons, List.find?_cons, List.find?_cons, hf]
    cases hp : p a
    · exact ih
    · rfl

theorem find?_id_of_nodup (l : List BlacklistRow)
    (hnd : (l.map BlacklistRow.id).Nodup) (r : BlacklistRow) (hr : r ∈ l) :
    l.find? (fun x => x.id == r.id) = some r := by
  induction l with
  | nil => cases hr
  | cons a tl ih =>
    rw [List.map_cons, List.nodup_cons] at hnd
    rcases List.mem_cons.mp hr with h | h
    · subst h
      simp [List.find?_cons]
    · have hne : a.id ≠ r.id := by
        intro he
        exact hnd.1 (he ▸ List.mem_map_of_mem BlacklistRow.id h)
      have hb : (a.id == r.id) = false := beq_eq_false_iff_ne.mpr hne
      rw [List.find?_cons, hb]
      exact ih hnd.2 h

end AutobahnBlacklist

open AutobahnBlacklist

theorem retireRow_pres_item (v : PyVal) :
    ∀ r : BlacklistRow,
      ((if r.item == pyStr v then (⟨r.id, r.item, true⟩ : BlacklistRow) else r).item == pyStr v)
        = (r.item == pyStr v) := by
  intro r
  by_cases h : r.item = pyStr v <;> simp [h]

theorem retireRow_pres_id (v : PyVal) (i : Nat) :
    ∀ r : BlacklistRow,
      ((if r.item == pyStr v then (⟨r.id, r.item, true⟩ : BlacklistRow) else r).id == i)
        = (r.id == i) := by
  intro r
  by_cases h : r.item = pyStr v <;> simp [h]

/-- C2: after retire(category, value) succeeds, get_by_value(category,
value) is absent, while get(category, index) with the entry's index still
returns the record with retired = true, and no row is physically deleted
(ids and items are all preserved).  The hypothesis is the id-uniqueness
every reachable table has (ids come from the serial sequence). -/
theorem retire_logical_deletion (t : BlacklistTable) (v : PyVal)
    (hids : NoDupIds t) :
    get_by_value (retire t v).1 v = none
    ∧ (retire t v).1.rows.map (fun r => (r.id, r.item))
        = t.rows.map (fun r => (r.id, r.item))
    ∧ ∀ e, get_by_value t v = some e →
        get (retire t v).1 e.index = some ⟨e.index, e.value, true⟩ := by
  refine ⟨?_, ?_, ?_⟩
  · unfold get_by_value retire
    dsimp only
    rw [find?_map_pres _ _ (retireRow_pres_item v)]
    rcases hf : t.rows.find? (fun r => r.item == pyStr v) with _ | r
    · rw [hf]
      rfl
    · have heq : r.item = pyStr v := by
        simpa using List.find?_some hf
      rw [hf]
      simp [heq]
  · unfold retire
    dsimp only
    rw [List.map_map]
    apply List.map_congr_left
    intro r _
    by_cases h : r.item = pyStr v <;> simp [h]
  · intro e he
    unfold get_by_value at he
    rcases hf : t.rows.find? (fun r => r.item == pyStr v) with _ | r
    · rw [hf] at he
      simp at he
    · rw [hf] at he
      dsimp only at he
      have heq : r.item = pyStr v := by
        simpa using List.find?_some hf
      have hmem : r ∈ t.rows := List.mem_of_find?_eq_some hf
      by_cases hr : r.retired = true
      · rw [if_pos hr] at he
        simp at he
      · rw [if_neg hr] at he
        obtain rfl := (Option.some.inj he).symm
        unfold AutobahnBlacklist.get retire
        dsimp only
        rw [find?_map_pres _ _ (retireRow_pres_id v r.id)]
        rw [find?_id_of_nodup t.rows hids r hmem]
        simp [heq]

/-- Witness for C2 at a concrete table: one active entry "x" at index 0;
after retiring "x" the value lookup is absent while the id lookup returns
the retired record. -/
theorem retire_logical_deletion_witness :
    NoDupIds wtable
    ∧ get_by_value (retire wtable (.str "x")).1 (.str "x") = none
    ∧ get (retire wtable (.str "x")).1 0 = some ⟨0, .str "x", true⟩ :=
  ⟨by decide,
   (retire_logical_deletion wtable (.str "x") (by decide)).1,
   (retire_logical_deletion wtable (.str "x") (by decide)).2.2
     ⟨0, .str "x", false⟩ (by decide)⟩

/-- C3: the per-category index is drawn from a strictly increasing
sequence: the invariants hold at the empty table and are preserved by add
and retire, and a fresh add is assigned an index strictly greater than
the index of every row already in the table — retired rows included, so
indices are never reused and a re-added retired value gets a strictly
greater index. -/
theorem blacklist_index_monotone :
    WF emptyTable
    ∧ (∀ t v, WF t → WF (add t v).1)
    ∧ (∀ t v, WF t → WF (retire t v).1)
    ∧ (∀ t v, WF t → NoDupIds t → NoDupIds (add t v).1)
    ∧ (∀ t v, NoDupIds t → NoDupIds (retire t v).1)
    ∧ (∀ t v, WF t → ∀ r ∈ t.rows, r.id < (add t v).2.index) := by
  refine ⟨?_, ?_, ?_, ?_, ?_, ?_⟩
  · intro r hr
    cases hr
  · intro t v hw r hr
    rcases List.mem_append.mp hr with h | h
    · exact Nat.lt_succ_of_lt (hw r h)
    · rcases List.mem_singleton.mp h with rfl
      exact Nat.lt_succ_self _
  · intro t v hw r hr
    rcases List.mem_map.mp hr with ⟨x, hx, rfl⟩
    have hid : (if x.item == pyStr v then (⟨x.id, x.item, true⟩ : BlacklistRow) else x).id = x.id := by
      by_cases h : x.item = pyStr v <;> simp [h]
    rw [hid]
    exact hw x hx
  · intro t v hw hnd
    unfold NoDupIds add
    dsimp only
    rw [List.map_append]
    rw [List.nodup_append]
    refine ⟨hnd, List.nodup_singleton _, ?_⟩
    intro a ha hb
    rcases List.mem_map.mp ha with ⟨r, hr, rfl⟩
    rcases List.mem_singleton.mp hb with h
    exact absurd (h ▸ hw r hr) (lt_irrefl _)
  · intro t v hnd
    unfold NoDupIds retire
    dsimp only
    rw [List.map_map]
    have hcongr : t.rows.map
        (BlacklistRow.id ∘ fun r => if r.item == pyStr v then (⟨r.id, r.item, true⟩ : BlacklistRow) else r)
        = t.rows.map BlacklistRow.id := by
      apply List.map_congr_left
      intro r _
      by_cases h : r.item = pyStr v <;> simp [h]
    rw [hcongr]
    exact hnd
  · intro t v hw r hr
    exact hw r hr

/-- Witness for C3: at the one-entry table `wtable` (entry "x" at index
0), the invariants are decidable facts and the next add receives a
strictly greater index. -/
theorem blacklist_index_monotone_witness :
    WF wtable
    ∧ NoDupIds wtable
    ∧ (⟨0, "x", false⟩ : BlacklistRow).id < (add wtable (.str "x")).2.index :=
  ⟨by decide, by decide,
   blacklist_index_monotone.2.2.2.2.2 wtable (.str "x") (by decide)
     ⟨0, "x", false⟩ (by decide)⟩

/-- C10: every operation coerces its argument with str() before storing
or matching: add/get_by_value/retire behave identically on `v` and on
`str(v)`, and the row stored by add carries the string form. -/
theorem blacklist_value_coercion (t : BlacklistTable) (v : PyVal) :
    (add t v).1 = (add t (.str (pyStr v))).1
    ∧ get_by_value t v = get_by_value t (.str (pyStr v))
    ∧ retire t v = retire t (.str (pyStr v))
    ∧ ∀ r ∈ (add t v).1.rows, r ∈ t.rows ∨ r.item = pyStr v := by
  refine ⟨rfl, rfl, rfl, ?_⟩
  intro r hr
  rcases List.mem_append.mp hr with h | h
  · exact Or.inl h
  · rcases List.mem_singleton.mp h with rfl
    exact Or.inr rfl

/-- Witness for C10 at the number 111: the int form and its string form
"111" hit the same stored row. -/
theorem blacklist_value_coercion_witness :
    get_by_value (add emptyTable (.int 111)).1 (.int 111)
      = get_by_value (add emptyTable (.int 111)).1 (.str "111")
    ∧ ((⟨0, "111", false⟩ : BlacklistRow) ∈ emptyTable.rows
        ∨ (⟨0, "111", false⟩ : BlacklistRow).item = pyStr (.int 111)) :=
  ⟨(blacklist_value_coercion (add emptyTable (.int 111)).1 (.int 111)).2.1,
   (blacklist_value_coercion emptyTable (.int 111)).2.2.2
     ⟨0, "111", false⟩ (by decide)⟩

/-- C5 counterexample: in `c5table` the only entry with value "v" is
retired — there is no active entry (get_by_value is absent) — yet retire
succeeds again (returns index 0, and the wrapper raises no
ItemDoesNotExistError), contradicting "retire fails with NotFound when no
active entry with that value exists". -/
theorem retire_already_retired_succeeds_cex :
    get_by_value c5table (.str "v") = none
    ∧ (∃ r ∈ c5table.rows, r.item = pyStr (.str "v") ∧ r.retired = true)
    ∧ (retire c5table (.str "v")).2 = some 0
    ∧ retireW c5table (.str "v") = .ok (c5table, 0) := by
  refine ⟨by decide, ⟨⟨0, "v", true⟩, by decide, rfl, rfl⟩, by decide, ?_⟩
  rfl

/-- C5 amended: retire retires every row whose value matches (active or
already retired); it fails with NotFound exactly when no row at all with
that value exists; whenever any matching row exists — even a retired one
— retire succeeds. -/
theorem retire_matches_all_semantics (t : BlacklistTable) (v : PyVal) :
    ((retire t v).2 = none ↔ ∀ r ∈ t.rows, r.item ≠ pyStr v)
    ∧ (retireW t v = .error .itemDoesNotExist ↔ (retire t v).2 = none)
    ∧ (∀ r ∈ (retire t v).1.rows, r.item = pyStr v → r.retired = true)
    ∧ ((∃ r ∈ t.rows, r.item = pyStr v) → (retire t v).2.isSome = true) := by
  refine ⟨?_, ?_, ?_, ?_⟩
  · unfold retire
    dsimp only
    rw [Option.map_eq_none']
    rw [List.find?_eq_none]
    simp
  · unfold retireW
    rcases hp : retire t v with ⟨t2, o⟩
    cases o <;> simp [hp]
  · intro r hr hitem
    rcases List.mem_map.mp hr with ⟨x, hx, rfl⟩
    by_cases h : x.item = pyStr v
    · simp [h]
    · simp only [beq_eq_false_iff_ne.mpr h, Bool.false_eq_true, if_false] at hitem ⊢
      exact absurd hitem h
  · intro hex
    rcases hex with ⟨r, hr, hitem⟩
    unfold retire
    dsimp only
    rw [Option.isSome_map']
    exact List.find?_isSome.mpr ⟨r, hr, by simp [hitem]⟩

/-- Witness for C5 amended at a table holding an active "x": retire
succeeds there, and at an already-retired-only table re-retire's result is
not NotFound. -/
theorem retire_matches_all_semantics_witness :
    (retire wtable (.str "x")).2.isSome = true
    ∧ (retireW c5table (.str "v") = .error .itemDoesNotExist
        ↔ (retire c5table (.str "v")).2 = none) :=
  ⟨(retire_matches_all_semantics wtable (.str "x")).2.2.2
     ⟨⟨0, "x", false⟩, by decide, rfl⟩,
   (retire_matches_all_semantics c5table (.str "v")).2.1⟩

/-- C4 counterexample: the parsed batch handed to upsert_multiple by the
importing subcommand (banlist.py line 82 passes rose_csv_to_dict's output
unchanged) still contains both rows with id "111" — no deduplication by
id happens before the call. -/
theorem import_no_dedup_before_upsert_cex :
    rose_csv_to_dict c4rows = [("111", "spam"), ("111", "spam2"), ("222", "flood")]
    ∧ ((rose_csv_to_dict c4rows).filter (fun p => p.1 == "111")).length = 2 := by
  exact ⟨rfl, rfl⟩

/-- C4 amended: the import passes the full, un-deduplicated 3-row batch to
upsert_multiple; because the batch proposes two rows with id 111, the
single INSERT .. ON CONFLICT raises the 21000 cardinality violation — the
transaction aborts with no writes, so the registry stays unchanged (111
and 222 are absent) and the command fails before producing its
"Added 3 entries." report. -/
theorem import_duplicate_id_aborts :
    (importBanlist [] c4rows false (fun _ _ => false)).db = []
    ∧ (importBanlist [] c4rows false (fun _ _ => false)).result = .error .cardinalityViolation
    ∧ upsert_multiple [] (rose_csv_to_dict c4rows) = .error .cardinalityViolation
    ∧ banlistGet (importBanlist [] c4rows false (fun _ _ => false)).db 111 = none
    ∧ banlistGet (importBanlist [] c4rows false (fun _ _ => false)).db 222 = none := by
  exact ⟨rfl, rfl, rfl, rfl, rfl⟩

/-- If some record's id fails int(), List.mapM over Option yields none. -/
theorem mapM_parse_eq_none (bans : List (String × String))
    (hbad : ∃ p ∈ bans, intPy? p.1 = none) :
    bans.mapM (fun p => (intPy? p.1).map (fun i => (i, p.2))) = none := by
  induction bans with
  | nil =>
    rcases hbad with ⟨p, hp, _⟩
    cases hp
  | cons a tl ih =>
    rw [List.mapM_cons]
    rcases hbad with ⟨p, hp, hnone⟩
    rcases List.mem_cons.mp hp with rfl | hmem
    · rw [hnone]
      rfl
    · cases ha : intPy? a.1
      · rfl
      · have htl : tl.mapM (fun p => (intPy? p.1).map (fun i => (i, p.2))) = none :=
          ih ⟨p, hmem, hnone⟩
        rw [htl]
        rfl

/-- If every record's id parses, List.mapM over Option yields some. -/
theorem mapM_parse_isSome (bans : List (String × String))
    (hok : ∀ p ∈ bans, (intPy? p.1).isSome = true) :
    (bans.mapM (fun p => (intPy? p.1).map (fun i => (i, p.2)))).isSome = true := by
  induction bans with
  | nil => rfl
  | cons a tl ih =>
    rw [List.mapM_cons]
    have ha := hok a (List.mem_cons_self a tl)
    cases hia : intPy? a.1 with
    | none =>
      rw [hia] at ha
      cases ha
    | some i =>
      have htl := ih (fun p hp => hok p (List.mem_cons_of_mem a hp))
      cases hit : tl.mapM (fun p => (intPy? p.1).map (fun i => (i, p.2))) with
      | none =>
        rw [hit] at htl
        cases htl
      | some l => rfl

/-- C6 amended: upsert_multiple is all-or-nothing — a single malformed
(non-numeric) id makes the whole call raise ValueError before anything is
written (so the well-formed rows of the batch are NOT upserted); a batch
whose ids all parse succeeds only when they are pairwise distinct,
otherwise the single ON CONFLICT INSERT raises the 21000 cardinality
violation, again with no writes. -/
theorem upsert_batch_all_or_nothing (bl : Banlist) (bans : List (String × String)) :
    ((∃ p ∈ bans, intPy? p.1 = none) → upsert_multiple bl bans = .error .valueError)
    ∧ (∀ parsed, bans.mapM (fun p => (intPy? p.1).map (fun i => (i, p.2))) = some parsed →
        hasDupId parsed = false →
        upsert_multiple bl bans = .ok (parsed.foldl (fun acc p => upsertOne acc p.1 p.2) bl))
    ∧ (∀ parsed, bans.mapM (fun p => (intPy? p.1).map (fun i => (i, p.2))) = some parsed →
        hasDupId parsed = true →
        upsert_multiple bl bans = .error .cardinalityViolation) := by
  refine ⟨?_, ?_, ?_⟩
  · intro hbad
    unfold upsert_multiple
    rw [mapM_parse_eq_none bans hbad]
  · intro parsed hm hnd
    unfold upsert_multiple
    rw [hm]
    dsimp only
    rw [if_neg (by simp [hnd])]
  · intro parsed hm hd
    unfold upsert_multiple
    rw [hm]
    dsimp only
    rw [if_pos (by simp [hd])]

/-- Witness for C6 amended on concrete batches: a malformed id errors
with ValueError, a well-formed duplicate-free batch succeeds, and a
duplicate-id batch errors with the cardinality violation. -/
theorem upsert_batch_all_or_nothing_witness :
    upsert_multiple [] [("111", "spam"), ("abc", "x"), ("222", "flood")] = .error .valueError
    ∧ upsert_multiple [] [("111", "spam"), ("222", "flood")]
        = .ok [((111 : Int), "spam"), (222, "flood")]
    ∧ upsert_multiple [] [("111", "spam"), ("111", "spam2")] = .error .cardinalityViolation :=
  ⟨(upsert_batch_all_or_nothing [] [("111", "spam"), ("abc", "x"), ("222", "flood")]).1
     ⟨("abc", "x"), by decide, by decide⟩,
   (upsert_batch_all_or_nothing [] [("111", "spam"), ("222", "flood")]).2.1
     [((111 : Int), "spam"), (222, "flood")] (by decide) (by decide),
   (upsert_batch_all_or_nothing [] [("111", "spam"), ("111", "spam2")]).2.2
     [((111 : Int), "spam"), (111, "spam2")] (by decide) (by decide)⟩

/-- C6 counterexample: importing a batch whose middle row has the
non-numeric id "abc" aborts the whole import — the registry stays empty,
so the well-formed rows (111, 222) are not upserted, contradicting "the
remaining well-formed rows are still upserted". -/
theorem malformed_row_aborts_batch_cex :
    (importBanlist [] c6rows false (fun _ _ => false)).db = []
    ∧ (importBanlist [] c6rows false (fun _ _ => false)).result = .error .valueError
    ∧ banlistGet (importBanlist [] c6rows false (fun _ _ => false)).db 222 = none := by
  exact ⟨rfl, rfl, rfl⟩

/-- Every chunk the slicing loop produces holds at most 50 ids. -/
theorem chunksOfAux_mem_length (fuel : Nat) (l c : List String)
    (hc : c ∈ chunksOfAux fuel l) : c.length ≤ 50 := by
  induction fuel generalizing l with
  | zero =>
    simp [chunksOfAux] at hc
  | succ n ih =>
    cases l with
    | nil =>
      simp [chunksOfAux] at hc
    | cons a rest =>
      simp only [chunksOfAux] at hc
      rcases List.mem_cons.mp hc with rfl | h
      · rw [List.length_take]
        exact min_le_left _ _
      · exact ih _ h

/-- With enough fuel the chunks concatenate back to the input list. -/
theorem chunksOfAux_flatten (fuel : Nat) (l : List String) (hl : l.length ≤ fuel) :
    (chunksOfAux fuel l).flatten = l := by
  induction fuel generalizing l with
  | zero =>
    cases l with
    | nil => rfl
    | cons a rest => simp at hl
  | succ n ih =>
    cases l with
    | nil => rfl
    | cons a rest =>
      simp only [chunksOfAux, List.flatten_cons]
      rw [ih ((a :: rest).drop 50) (by simp at hl ⊢; omega)]
      exact List.take_append_drop 50 (a :: rest)

theorem chunksOf_flatten (l : List String) : (chunksOf l).flatten = l :=
  chunksOfAux_flatten l.length l le_rfl

/-- The record just folded in is covered by the reason dict. -/
theorem reasonStep_covers_self (acc : List (String × List String)) (p : String × String) :
    ∃ q ∈ reasonStep acc p, q.1 = p.2 ∧ p.1 ∈ q.2 := by
  unfold reasonStep
  by_cases hany : (acc.any (fun q => q.1 == p.2)) = true
  · rw [if_pos hany]
    obtain ⟨q0, hq0, hbeq⟩ := List.any_eq_true.mp hany
    have heq : q0.1 = p.2 := by simpa using hbeq
    refine ⟨(q0.1, q0.2 ++ [p.1]), ?_, heq, List.mem_append_right _ (List.mem_singleton_self _)⟩
    have hf : (if q0.1 == p.2 then (q0.1, q0.2 ++ [p.1]) else q0) = (q0.1, q0.2 ++ [p.1]) := by
      simp [heq]
    exact hf ▸ List.mem_map_of_mem _ hq0
  · rw [if_neg hany]
    exact ⟨(p.2, [p.1]), List.mem_append_right _ (List.mem_singleton_self _), rfl,
      List.mem_singleton_self _⟩

/-- Coverage is preserved by later fold steps. -/
theorem reasonStep_covers_mono (acc : List (String × List String)) (p : String × String)
    (r i : String) (h : ∃ q ∈ acc, q.1 = r ∧ i ∈ q.2) :
    ∃ q ∈ reasonStep acc p, q.1 = r ∧ i ∈ q.2 := by
  obtain ⟨q, hq, hr, hi⟩ := h
  unfold reasonStep
  by_cases hany : (acc.any (fun q => q.1 == p.2)) = true
  · rw [if_pos hany]
    refine ⟨if q.1 == p.2 then (q.1, q.2 ++ [p.1]) else q, List.mem_map_of_mem _ hq, ?_, ?_⟩
    · by_cases hb : (q.1 == p.2) = true
      · rw [if_pos hb]
        exact hr
      · rw [if_neg hb]
        exact hr
    · by_cases hb : (q.1 == p.2) = true
      · rw [if_pos hb]
        exact List.mem_append_left _ hi
      · rw [if_neg hb]
        exact hi
  · rw [if_neg hany]
    exact ⟨q, List.mem_append_left _ hq, hr, hi⟩

theorem foldl_reasonStep_covers_mono (bans : List (String × String))
    (acc : List (String × List String)) (r i : String)
    (h : ∃ q ∈ acc, q.1 = r ∧ i ∈ q.2) :
    ∃ q ∈ bans.foldl reasonStep acc, q.1 = r ∧ i ∈ q.2 := by
  induction bans generalizing acc with
  | nil => exact h
  | cons a tl ih => exact ih _ (reasonStep_covers_mono acc a r i h)

/-- Every record of the batch is covered by the reason dict. -/
theorem buildReasonDict_covers (bans : List (String × String)) (p : String × String)
    (hp : p ∈ bans) :
    ∃ q ∈ buildReasonDict bans, q.1 = p.2 ∧ p.1 ∈ q.2 := by
  have aux : ∀ (l : List (String × String)) (acc : List (String × List String)), p ∈ l →
      ∃ q ∈ l.foldl reasonStep acc, q.1 = p.2 ∧ p.1 ∈ q.2 := by
    intro l
    induction l with
    | nil =>
      intro acc h
      cases h
    | cons a tl ih =>
      intro acc h
      rcases List.mem_cons.mp h with rfl | hmem
      · exact foldl_reasonStep_covers_mono tl (reasonStep acc p) p.2 p.1
          (reasonStep_covers_self acc p)
      · exact ih _ hmem
  exact aux bans [] hp

/-- The sequential push loop pushes exactly the chunks before the first
raising call, and succeeds iff no call raises. -/
theorem pushAll_eq (fail : String → List String → Bool) (cs : List (String × List String)) :
    pushAll fail cs
      = (cs.takeWhile (fun c => !(fail c.1 c.2)), cs.all (fun c => !(fail c.1 c.2))) := by
  induction cs with
  | nil => rfl
  | cons c rest ih =>
    cases hf : fail c.1 c.2 <;>
      simp [pushAll, hf, ih, List.takeWhile_cons]

/-- Every chunk of allChunks holds at most 50 ids. -/
theorem allChunks_size (dict : List (String × List String)) (c : String × List String)
    (hc : c ∈ allChunks dict) : c.2.length ≤ 50 := by
  unfold allChunks at hc
  rcases List.mem_flatten.mp hc with ⟨inner, hinner, hcin⟩
  rcases List.mem_map.mp hinner with ⟨q, hq, rfl⟩
  rcases List.mem_map.mp hcin with ⟨ch, hch, rfl⟩
  exact chunksOfAux_mem_length _ _ _ hch

/-- Every id held under some reason of the dict lands in a chunk carrying
that reason. -/
theorem allChunks_covers (dict : List (String × List String)) (q : String × List String)
    (hq : q ∈ dict) (i : String) (hi : i ∈ q.2) :
    ∃ c ∈ allChunks dict, c.1 = q.1 ∧ i ∈ c.2 := by
  have hflat : i ∈ (chunksOf q.2).flatten := by
    rw [chunksOf_flatten]
    exact hi
  rcases List.mem_flatten.mp hflat with ⟨ch, hch, hico⟩
  refine ⟨(q.1, ch), ?_, rfl, hico⟩
  unfold allChunks
  exact List.mem_flatten.mpr
    ⟨(chunksOf q.2).map (fun c => (q.1, c)), List.mem_map_of_mem _ hq,
     List.mem_map_of_mem _ hch⟩

/-- C8 amended: when the external authority is configured with sufficient
privilege and the local upsert has succeeded (all ids numeric and pairwise
distinct — otherwise upsert_multiple raises first and nothing is pushed),
the import partitions by reason into chunks of at most 50 ids covering
every imported id, pushed sequentially; the chunks actually pushed are
exactly those before the first raising add_bans call (a chunk failure is
not caught: it prevents all subsequent chunks from being pushed), while
the database state is independent of push failures (no rollback). -/
theorem import_push_chunk_semantics (bl : Banlist) (rows : List (List String))
    (fail : String → List String → Bool)
    (hup : ∃ bl2, upsert_multiple bl (rose_csv_to_dict rows) = .ok bl2) :
    (∀ c ∈ allChunks (buildReasonDict (rose_csv_to_dict rows)), c.2.length ≤ 50)
    ∧ (∀ p ∈ rose_csv_to_dict rows,
        ∃ c ∈ allChunks (buildReasonDict (rose_csv_to_dict rows)), c.1 = p.2 ∧ p.1 ∈ c.2)
    ∧ (importBanlist bl rows true fail).pushed
        = (allChunks (buildReasonDict (rose_csv_to_dict rows))).takeWhile
            (fun c => !(fail c.1 c.2))
    ∧ (importBanlist bl rows true fail).db
        = (importBanlist bl rows true (fun _ _ => false)).db := by
  obtain ⟨bl2, hu⟩ := hup
  refine ⟨?_, ?_, ?_, ?_⟩
  · intro c hc
    exact allChunks_size _ c hc
  · intro p hp
    obtain ⟨q, hq, hq1, hq2⟩ := buildReasonDict_covers _ p hp
    obtain ⟨c, hc, hc1, hc2⟩ := allChunks_covers _ q hq p.1 hq2
    exact ⟨c, hc, hc1.trans hq1, hc2⟩
  · unfold importBanlist
    by_cases hemp : (rose_csv_to_dict rows).isEmpty = true
    · rw [if_pos hemp]
      have hnil : rose_csv_to_dict rows = [] := by
        simpa using hemp
      rw [hnil]
      rfl
    · rw [if_neg hemp]
      rw [hu]
      dsimp only
      rw [if_pos rfl]
      rw [pushAll_eq]
      cases hall : (allChunks (buildReasonDict (rose_csv_to_dict rows))).all
          (fun c => !(fail c.1 c.2)) <;>
        rfl
  · unfold importBanlist
    by_cases hemp : (rose_csv_to_dict rows).isEmpty = true
    · rw [if_pos hemp, if_pos hemp]
    · rw [if_neg hemp, if_neg hemp]
      rw [hu]
      dsimp only
      rw [if_pos rfl, if_pos rfl]
      rw [pushAll_eq, pushAll_eq]
      have hallf : (allChunks (buildReasonDict (rose_csv_to_dict rows))).all
          (fun c => !((fun _ _ => false) c.1 c.2)) = true := by
        simp
      rw [hallf]
      cases hall : (allChunks (buildReasonDict (rose_csv_to_dict rows))).all
          (fun c => !(fail c.1 c.2)) <;>
        rfl

/-- Witness for C8 amended on the small batch `w8rows` (three distinct
numeric ids, so the upsert succeeds) with a never-raising authority
client: the pushed chunks equal the takeWhile characterization. -/
theorem import_push_chunk_semantics_witness :
    (importBanlist [] w8rows true (fun _ _ => false)).pushed
      = (allChunks (buildReasonDict (rose_csv_to_dict w8rows))).takeWhile
          (fun c => !((fun _ _ => false) c.1 c.2)) :=
  (import_push_chunk_semantics [] w8rows (fun _ _ => false)
    ⟨[((1 : Int), "a"), (2, "a"), (3, "b")], rfl⟩).2.2.1

set_option maxRecDepth 10000 in
/-- C8 counterexample: importing 60 ids of one reason with an authority
client that raises on the first chunk (the one containing id "0"): there
are two chunks, but nothing is pushed — the failure prevents the second
chunk from being pushed and aborts the command — contradicting "a failure
while pushing one chunk ... does not prevent subsequent chunks from being
pushed". -/
theorem chunk_failure_aborts_rest_cex :
    (allChunks (buildReasonDict (rose_csv_to_dict c8rows))).length = 2
    ∧ (importBanlist [] c8rows true c8fail).pushed = []
    ∧ (importBanlist [] c8rows true c8fail).result = .error .swClientError := by
  refine ⟨by decide, by decide, ?_⟩
  rfl

/-- C7 counterexample: the chat's acting account IS the creator (so the
spec-side authority predicate holds and the claim says enforcement must
proceed), the event is a group message by banned non-admin user 5 with no
opt-out tags — yet the handler terminates as ignored with zero ban calls,
because its second check (grenzschutz.py line 52) also fires for a
creator whose admin-rights object lacks ban_users. -/
theorem creator_without_ban_right_ignored_cex :
    envCreatorNoBanRight.chat.creator = true
    ∧ specAuthority envCreatorNoBanRight.chat = true
    ∧ envCreatorNoBanRight.is_private = false
    ∧ shapePass (.newMessage (some 5)) = true
    ∧ excludedTags envCreatorNoBanRight = false
    ∧ envCreatorNoBanRight.banlist 5 = some "spam"
    ∧ envCreatorNoBanRight.admins.contains 5 = false
    ∧ envCreatorNoBanRight.ban_fails = false
    ∧ grenzschutz envCreatorNoBanRight (.newMessage (some 5)) = ignoredTrace
    ∧ (grenzschutz envCreatorNoBanRight (.newMessage (some 5))).banCalls = 0 := by
  decide

/-- C7 amended: enforcement proceeds past the authority check iff the
acting account is the creator or holds admin rights, and any admin-rights
object present includes ban_users (`codeAuthority`); when the predicate
fails the run is ignored with no ban attempted, and when it holds (all
other gates passing, subject banned and not an admin) the ban is
attempted. -/
theorem authority_gate_semantics (env : GEnv) (ev : GEvent) :
    (codeAuthority env.chat = false → grenzschutz env ev = ignoredTrace)
    ∧ (codeAuthority env.chat = true → env.is_private = false → shapePass ev = true →
        excludedTags env = false → ∀ uid r, subjectId ev = some uid →
        env.banlist uid = some r → env.admins.contains uid = false →
        (grenzschutz env ev).banCalls = 1) := by
  constructor
  · intro h
    unfold grenzschutz
    cases hp : env.is_private
    · cases hs : shapePass ev
      · rw [if_neg (by simp [hp])]
        rw [if_pos (by simp [hs])]
      · rw [if_neg (by simp [hp])]
        rw [if_neg (by simp [hs])]
        rw [if_pos (by simp [h])]
    · rw [if_pos (by simp [hp])]
  · intro h hp hs hx uid r hu hb ha
    unfold grenzschutz
    rw [if_neg (by simp [hp])]
    rw [if_neg (by simp [hs])]
    rw [if_neg (by simp [h])]
    rw [if_neg (by simp [hx])]
    rw [hu]
    dsimp only
    rw [hb]
    dsimp only
    rw [if_pos (by rw [ha]; rfl)]
    cases hbf : env.ban_fails
    · rw [if_neg (by simp [hbf])]
      cases hsil : env.grenzschutz_tag == some "silent"
      · rw [if_neg (by simp [hsil])]
        cases hge : env.get_entity_fails
        · rw [if_neg (by simp [hge])]
        · rw [if_pos (by simp [hge])]
      · rw [if_pos (by simp [hsil])]
    · rw [if_pos (by simp [hbf])]

/-- Witness for C7 amended: a chat with neither creator nor admin rights
is ignored; with full ban rights and a banned non-admin subject the ban
is invoked. -/
theorem authority_gate_semantics_witness :
    grenzschutz { envBanOk with chat := ⟨false, none⟩ } (.newMessage (some 5)) = ignoredTrace
    ∧ (grenzschutz envBanOk (.newMessage (some 5))).banCalls = 1 :=
  ⟨(authority_gate_semantics { envBanOk with chat := ⟨false, none⟩ } (.newMessage (some 5))).1
     (by decide),
   (authority_gate_semantics envBanOk (.newMessage (some 5))).2
     (by decide) (by decide) (by decide) (by decide) 5 "spam" (by decide) (by decide) (by decide)⟩

/-- C1 amended: for an event that passes the private-chat, shape,
authority and opt-out gates with subject uid: registry miss means no ban
call; banned non-admin means exactly one ban call, and the triggering
message is deleted iff the platform ban call did not raise
UserIdInvalidError (on a raise the flow halts before deletion); banned
admin means zero ban calls (admin-exempt). -/
theorem grenzschutz_enforcement_cases (env : GEnv) (ev : GEvent) (uid : Int)
    (hp : env.is_private = false) (hs : shapePass ev = true)
    (h : codeAuthority env.chat = true) (hx : excludedTags env = false)
    (hu : subjectId ev = some uid) :
    (env.banlist uid = none → grenzschutz env ev = ⟨0, false, .notBanned⟩)
    ∧ (∀ r, env.banlist uid = some r → env.admins.contains uid = false →
        (grenzschutz env ev).banCalls = 1
        ∧ (grenzschutz env ev).deletedTrigger = !env.ban_fails)
    ∧ (∀ r, env.banlist uid = some r → env.admins.contains uid = true →
        grenzschutz env ev = ⟨0, false, .adminExempt⟩) := by
  have hg : grenzschutz env ev =
      (match env.banlist uid with
       | none => ⟨0, false, .notBanned⟩
       | some _reason =>
         if !(env.admins.contains uid) then
           if env.ban_fails then ⟨1, false, .banFailed⟩
           else if env.grenzschutz_tag == some "silent" then ⟨1, true, .banned⟩
           else if env.get_entity_fails then ⟨1, true, .crashedAtNotify⟩
           else ⟨1, true, .banned⟩
         else ⟨0, false, .adminExempt⟩) := by
    unfold grenzschutz
    rw [if_neg (by simp [hp])]
    rw [if_neg (by simp [hs])]
    rw [if_neg (by simp [h])]
    rw [if_neg (by simp [hx])]
    rw [hu]
  refine ⟨?_, ?_, ?_⟩
  · intro hb
    rw [hg, hb]
  · intro r hb ha
    rw [hg, hb]
    dsimp only
    rw [if_pos (by rw [ha]; rfl)]
    cases hbf : env.ban_fails
    · rw [if_neg (by simp [hbf])]
      cases hsil : env.grenzschutz_tag == some "silent"
      · rw [if_neg (by simp [hsil])]
        cases hge : env.get_entity_fails
        · rw [if_neg (by simp [hge])]
          exact ⟨rfl, rfl⟩
        · rw [if_pos (by simp [hge])]
          exact ⟨rfl, rfl⟩
      · rw [if_pos (by simp [hsil])]
        exact ⟨rfl, rfl⟩
    · rw [if_pos (by simp [hbf])]
      exact ⟨rfl, rfl⟩
  · intro r hb ha
    rw [hg, hb]
    dsimp only
    rw [if_neg (by rw [ha]; simp)]

/-- Witness for C1 amended at concrete environments: registry miss,
banned non-admin with succeeding ban, and banned admin. -/
theorem grenzschutz_enforcement_cases_witness :
    grenzschutz { envBanOk with banlist := fun _ => none } (.newMessage (some 5))
        = ⟨0, false, .notBanned⟩
    ∧ ((grenzschutz envBanOk (.newMessage (some 5))).banCalls = 1
        ∧ (grenzschutz envBanOk (.newMessage (some 5))).deletedTrigger = !envBanOk.ban_fails)
    ∧ grenzschutz { envBanOk with admins := [5] } (.newMessage (some 5))
        = ⟨0, false, .adminExempt⟩ :=
  ⟨(grenzschutz_enforcement_cases { envBanOk with banlist := fun _ => none }
      (.newMessage (some 5)) 5 (by decide) (by decide) (by decide) (by decide) rfl).1 rfl,
   (grenzschutz_enforcement_cases envBanOk (.newMessage (some 5)) 5
      (by decide) (by decide) (by decide) (by decide) rfl).2.1 "spam" (by decide) (by decide),
   (grenzschutz_enforcement_cases { envBanOk with admins := [5] } (.newMessage (some 5)) 5
      (by decide) (by decide) (by decide) (by decide) rfl).2.2 "spam" (by decide) (by decide)⟩

/-- C1 counterexample: all four gates pass, user 5 is banned and not an
admin, but the platform ban raises UserIdInvalidError: the ban action was
invoked exactly once yet the triggering message is NOT deleted,
contradicting "the ban action is invoked exactly once and the triggering
message is deleted". -/
theorem ban_failure_no_delete_cex :
    envBanRaises.is_private = false
    ∧ shapePass (.newMessage (some 5)) = true
    ∧ codeAuthority envBanRaises.chat = true
    ∧ excludedTags envBanRaises = false
    ∧ envBanRaises.banlist 5 = some "spam"
    ∧ envBanRaises.admins.contains 5 = false
    ∧ (grenzschutz envBanRaises (.newMessage (some 5))).banCalls = 1
    ∧ (grenzschutz envBanRaises (.newMessage (some 5))).deletedTrigger = false := by
  decide

/-- C9: the file-category add path is broken — invoked with no inline
items and a reply to a file message, the command raises
UnboundLocalError at the existence check (autobahn_mgr.py line 129 reads
the local `item`, never assigned on this path, instead of `file_hash`),
so neither the existing nor the added bucket is ever produced; the
non-reply and non-file guards still return their error reports. -/
theorem add_file_branch_unbound_local (env : AddEnv) (bl : BlacklistTable)
    (hr : env.is_reply = true) (hf : env.has_file = true) :
    autobahnAdd env (some "0x5") [] bl = .error .unboundLocalError
    ∧ autobahnAdd { env with is_reply := false } (some "0x5") [] bl
        = .ok (bl, ⟨[], [], [], false, some "Need to reply to a file"⟩) := by
  constructor
  · unfold autobahnAdd
    dsimp only
    rw [if_pos (by simp)]
    rw [if_neg (by simp [hr])]
    rw [if_neg (by simp [hf])]
  · unfold autobahnAdd
    dsimp only
    rw [if_pos (by simp)]
    rw [if_pos (by simp)]
    rfl

/-- Witness for C9 at the concrete environment `addEnvFile` (reply to a
file, no inline items) over the empty table. -/
theorem add_file_branch_unbound_local_witness :
    autobahnAdd addEnvFile (some "0x5") [] emptyTable = .error .unboundLocalError
    ∧ autobahnAdd { addEnvFile with is_reply := false } (some "0x5") [] emptyTable
        = .ok (emptyTable, ⟨[], [], [], false, some "Need to reply to a file"⟩) :=
  add_file_branch_unbound_local addEnvFile emptyTable rfl rfl
